import Mathlib

/-!
Verification development for the social media post generator
(src/social_media_post_generator.py), a Streamlit application that
collects event details, builds one prompt per social platform, sends it
to a selected remote text-generation provider (Gemini or ChatGPT), and
renders the three results each with a clipboard-copy control.

The Python source is shallowly embedded below: pure string building is
translated to Lean string functions; the remote provider and the
provider setup step are modelled as explicit `Except` valued behaviours
supplied in the environment; one run of `main` is a pure function from
that environment to a record of the observable outputs (messages,
issued remote calls, rendered posts).
-/

namespace SMPG

/-- The radio choice `st.sidebar.radio("Select AI Service", ["Gemini", "ChatGPT"])`. -/
inductive ApiChoice where
  | Gemini : ApiChoice
  | ChatGPT : ApiChoice
deriving DecidableEq

/-- The display name of the selected service, as interpolated into messages. -/
def ApiChoice.name : ApiChoice → String
  | ApiChoice.Gemini => "Gemini"
  | ApiChoice.ChatGPT => "ChatGPT"

/-- A calendar date as handled by `datetime.date`. -/
structure Date where
  year : Nat
  month : Nat
  day : Nat
deriving DecidableEq

/-- Python comparison `d1 < d2` on `datetime.date`: lexicographic on
(year, month, day). -/
def Date.lt (a b : Date) : Prop :=
  a.year < b.year ∨
    (a.year = b.year ∧ (a.month < b.month ∨ (a.month = b.month ∧ a.day < b.day)))

instance (a b : Date) : Decidable (Date.lt a b) := by
  unfold Date.lt
  exact inferInstance

/-- Python truthiness of a `datetime.date` object: a date object is never
falsy, so `all([...])` treats it as true. -/
def Date.truthy (_ : Date) : Bool := true

/-- Full English month name, the rendering of the `%B` directive under the
default C locale. -/
def monthName : Nat → String
  | 1 => "January"
  | 2 => "February"
  | 3 => "March"
  | 4 => "April"
  | 5 => "May"
  | 6 => "June"
  | 7 => "July"
  | 8 => "August"
  | 9 => "September"
  | 10 => "October"
  | 11 => "November"
  | 12 => "December"
  | _ => ""

/-- Zero padding to two digits, the rendering of the `%d` directive. -/
def pad2 (n : Nat) : String :=
  if n < 10 then "0" ++ Nat.repr n else Nat.repr n

/-- Interpreter for the strftime directives used by the program: `%B` is the
full month name, `%d` the zero-padded day, `%Y` the year; every other
character is copied verbatim. -/
def strftimeAux (d : Date) : List Char → List Char
  | [] => []
  | '%' :: c :: rest =>
    (match c with
     | 'B' => (monthName d.month).data
     | 'd' => (pad2 d.day).data
     | 'Y' => (Nat.repr d.year).data
     | c' => ['%', c']) ++ strftimeAux d rest
  | c :: rest => c :: strftimeAux d rest

/-- Model of `date.strftime(fmt)`. -/
def Date.strftime (d : Date) (fmt : String) : String :=
  ⟨strftimeAux d fmt.data⟩

/-- The prompt built by `generate_post_with_gemini` (source lines 59 to 70),
transcribed byte for byte from the f-string. -/
def gemini_prompt (platform event_name date description venue : String) : String :=
  "Generate a " ++ platform ++
  " post for an event with the following details:\n    Event Name: " ++ event_name ++
  "\n    Date: " ++ date ++
  "\n    Venue: " ++ venue ++
  "\n    Description: " ++ description ++
  "\n    \n    For " ++ platform ++
  ", consider these specific requirements:\n    - LinkedIn: Professional tone, include relevant hashtags, structured format\n    - Twitter: Concise (under 280 characters), engaging, include hashtags\n    - WhatsApp: Casual tone, use emojis, clear formatting with event details\n    \n    Generate only the post content without any explanations."

/-- The prompt built by `generate_post_with_chatgpt` (source lines 80 to 91),
transcribed byte for byte from the f-string. -/
def chatgpt_prompt (platform event_name date description venue : String) : String :=
  "Generate a " ++ platform ++
  " post for an event with the following details:\n    Event Name: " ++ event_name ++
  "\n    Date: " ++ date ++
  "\n    Venue: " ++ venue ++
  "\n    Description: " ++ description ++
  "\n    \n    For " ++ platform ++
  ", consider these specific requirements:\n    - LinkedIn: Professional tone, include relevant hashtags, structured format\n    - Twitter: Concise (under 280 characters), engaging, include hashtags\n    - WhatsApp: Casual tone, use emojis, clear formatting with event details\n    \n    Generate only the post content without any explanations."

/-- `generate_post_with_gemini`: the remote call `model.generate_content`
together with the `.text` access is modelled by `model : String → Except
String String` (error value = `str(e)` of the raised exception).  On
success the code returns `response.text.strip()`; on any exception it
returns the error string. -/
def generate_post_with_gemini (model : String → Except String String)
    (platform event_name date description venue : String) : String :=
  match model (gemini_prompt platform event_name date description venue) with
  | Except.ok response => response.trim
  | Except.error e => "Error generating post: " ++ e

/-- `generate_post_with_chatgpt`: same shape with the OpenAI client; the
chat-completion call and message extraction are the modelled behaviour. -/
def generate_post_with_chatgpt (client : String → Except String String)
    (platform event_name date description venue : String) : String :=
  match client (chatgpt_prompt platform event_name date description venue) with
  | Except.ok response => response.trim
  | Except.error e => "Error generating post: " ++ e

/-- Substring containment: `needle` occurs verbatim and contiguously in
`hay`. -/
def containsStr (hay needle : String) : Prop :=
  ∃ s t : String, hay = s ++ needle ++ t

theorem str_append_assoc (a b c : String) : a ++ b ++ c = a ++ (b ++ c) := by
  cases a with
  | mk la =>
    cases b with
    | mk lb =>
      cases c with
      | mk lc =>
        show String.mk (la ++ lb ++ lc) = String.mk (la ++ (lb ++ lc))
        rw [List.append_assoc]

theorem str_empty_append (a : String) : "" ++ a = a := by
  cases a with
  | mk la =>
    show String.mk ([] ++ la) = String.mk la
    rw [List.nil_append]

theorem str_append_empty (a : String) : a ++ "" = a := by
  cases a with
  | mk la =>
    show String.mk (la ++ []) = String.mk la
    rw [List.append_nil]

theorem containsStr_appL {s x : String} (t : String) (h : containsStr s x) :
    containsStr (s ++ t) x := by
  obtain ⟨u, v, rfl⟩ := h
  exact ⟨u, v ++ t, by rw [str_append_assoc, str_append_assoc]⟩

theorem containsStr_appR {t x : String} (s : String) (h : containsStr t x) :
    containsStr (s ++ t) x := by
  obtain ⟨u, v, rfl⟩ := h
  exact ⟨s ++ u, v, by simp [str_append_assoc]⟩

theorem containsStr_head (x t : String) : containsStr (x ++ t) x :=
  ⟨"", t, by rw [str_empty_append]⟩

theorem containsStr_last (s x : String) : containsStr (s ++ x) x :=
  ⟨s, "", by rw [str_append_empty]⟩

/-- The HTML/JavaScript template of `create_copy_button` up to the point
where `text` is interpolated into the hidden textarea (source lines 9 to 28).
Literal braces of the JavaScript are written with escapes. -/
def copy_button_before (button_id : String) : String :=
  "\n        <div style=\"position: relative; margin-bottom: 15px;\">\n            <button \n                onclick=\"copyText_" ++
  button_id ++
  "()\"\n                style=\"\n                    background-color: white;\n                    border: 1px solid #ccc;\n                    padding: 8px 15px;\n                    border-radius: 5px;\n                    cursor: pointer;\n                    display: flex;\n                    align-items: center;\n                    gap: 5px;\n                    font-size: 14px;\n                \"\n            >\n                <span style=\"font-size: 16px;\">📋</span>\n                <span>Copy</span>\n            </button>\n            <textarea id=\"textToCopy_" ++
  button_id ++
  "\" style=\"position: absolute; top: -9999px;\">"

/-- The rest of the `create_copy_button` template after the interpolated
`text` (source lines 28 to 44). -/
def copy_button_after (button_id : String) : String :=
  "</textarea>\n            <script>\n                function copyText_" ++
  button_id ++
  "() \x7b\n                    var copyText = document.getElementById(\"textToCopy_" ++
  button_id ++
  "\");\n                    copyText.select();\n                    document.execCommand(\"copy\");\n                    var button = event.target;\n                    if (button.tagName === \x27SPAN\x27) button = button.parentElement;\n                    var originalText = button.innerHTML;\n                    button.innerHTML = \x27<span>✓ Copied!</span>\x27;\n                    setTimeout(function() \x7b\n                        button.innerHTML = originalText;\n                    \x7d, 2000);\n                \x7d\n            </script>\n        </div>\n    "

/-- `create_copy_button(text, button_id)`: returns the HTML string with the
result text embedded verbatim in a hidden textarea that the copy script
reads from. -/
def create_copy_button (text button_id : String) : String :=
  copy_button_before button_id ++ text ++ copy_button_after button_id

/-- One run of the Streamlit script.  Widget state and the behaviours of the
external collaborators (provider setup, remote generation endpoint) are the
inputs of the run. -/
structure Env where
  api_choice : ApiChoice
  api_key : String
  setup : Except String Unit
  event_name : String
  dateRequested : Date
  today : Date
  venue : String
  description : String
  generate : Bool
  remote : String → Except String String

/-- Modelled from the spec: the widget `st.date_input("Event Date",
min_value=datetime.today())` belongs to Streamlit, not to this repository.
Per the spec, the date picker has minimum selectable date equal to the
current date and rejects any earlier date; this is modelled by clamping the
requested date to the minimum. -/
def date_input (requested min_value : Date) : Date :=
  if Date.lt requested min_value then min_value else requested

/-- The date value `main` obtains from the date widget. -/
def mainEventDate (env : Env) : Date :=
  date_input env.dateRequested env.today

/-- One rendered platform section: `st.subheader`, the copy-button HTML
passed to `html(...)`, and the post text passed to `st.markdown`. -/
structure RenderedPost where
  platform : String
  subheader : String
  button_id : String
  copyHtml : String
  text : String
deriving DecidableEq

/-- The observable outputs of one run of `main`: sidebar warning, info
messages, top-level error, the prompts issued to the remote provider in
order, the rendered platform sections in order, and the example markdown
block of the guidance branch. -/
structure Output where
  sidebarWarning : Option String
  info : List String
  errorMsg : Option String
  calls : List String
  posts : List RenderedPost
  exampleMarkdown : List String
deriving DecidableEq

/-- Sidebar warning text shown when the key is missing (source line 151). -/
def missing_key_warning (c : ApiChoice) : String :=
  "Please enter your " ++ c.name ++ " API key to continue"

/-- Info text shown when the key is missing (source line 152). -/
def missing_key_info (c : ApiChoice) : String :=
  "👈 Enter your " ++ c.name ++ " API key in the sidebar to get started"

/-- Top-level error text when provider setup raises (source line 161). -/
def init_error_message (c : ApiChoice) (e : String) : String :=
  "Error initializing " ++ c.name ++ ": " ++ e

/-- Guidance info of the non-generating branch (source line 233). -/
def fill_in_info : String :=
  "👈 Fill in all the event details and click \x27Generate Posts\x27"

/-- Heading of the example section (source line 236). -/
def example_heading : String := "### Example Input"

/-- The example markdown block (source lines 237 to 245), transcribed byte
for byte. -/
def example_block : String :=
  "\n                **Event Name:** Tech Conference 2025\n                \n                **Date:** January 15, 2025\n                \n                **Venue:** Virtual Event\n                \n                **Description:** Join us for an exciting day of technology insights, networking, and learning from industry experts. Featured topics include AI, Cloud Computing, and Digital Transformation.\n                "

/-- The per-platform dispatch of `main`: `generate_post_with_gemini` when
Gemini is selected, `generate_post_with_chatgpt` otherwise. -/
def dispatch (c : ApiChoice) (remote : String → Except String String)
    (platform event_name date description venue : String) : String :=
  match c with
  | ApiChoice.Gemini =>
    generate_post_with_gemini remote platform event_name date description venue
  | ApiChoice.ChatGPT =>
    generate_post_with_chatgpt remote platform event_name date description venue

/-- The prompt that the selected generate function sends to the remote
endpoint (each generate function issues exactly one remote call, with this
prompt). -/
def promptFor (c : ApiChoice) (platform event_name date description venue : String) : String :=
  match c with
  | ApiChoice.Gemini => gemini_prompt platform event_name date description venue
  | ApiChoice.ChatGPT => chatgpt_prompt platform event_name date description venue

/-- The condition of source line 180:
`all([event_name, date, venue, description]) and generate`.  A date object
is always truthy. -/
def triggers (env : Env) : Bool :=
  env.event_name != "" && Date.truthy (mainEventDate env) &&
    env.venue != "" && env.description != "" && env.generate

/-- `date.strftime("%B %d, %Y")` of source line 182. -/
def formatted_date (env : Env) : String :=
  (mainEventDate env).strftime "%B %d, %Y"

/-- The prompt sent for a given platform in the run described by `env`. -/
def mainPrompt (env : Env) (platform : String) : String :=
  promptFor env.api_choice platform env.event_name (formatted_date env)
    env.description env.venue

/-- The generating branch of `main` (source lines 181 to 229): one call per
platform in the order LinkedIn, Twitter, WhatsApp; each section renders a
subheader, the copy button of the post text, and the post text. -/
def generateStage (env : Env) : Output :=
  let linkedin_post := dispatch env.api_choice env.remote "LinkedIn"
    env.event_name (formatted_date env) env.description env.venue
  let twitter_post := dispatch env.api_choice env.remote "Twitter"
    env.event_name (formatted_date env) env.description env.venue
  let whatsapp_post := dispatch env.api_choice env.remote "WhatsApp"
    env.event_name (formatted_date env) env.description env.venue
  { sidebarWarning := none
    info := []
    errorMsg := none
    calls := [mainPrompt env "LinkedIn", mainPrompt env "Twitter", mainPrompt env "WhatsApp"]
    posts := [
      { platform := "LinkedIn", subheader := "LinkedIn Post", button_id := "linkedin",
        copyHtml := create_copy_button linkedin_post "linkedin", text := linkedin_post },
      { platform := "Twitter", subheader := "Twitter Post", button_id := "twitter",
        copyHtml := create_copy_button twitter_post "twitter", text := twitter_post },
      { platform := "WhatsApp", subheader := "WhatsApp Post", button_id := "whatsapp",
        copyHtml := create_copy_button whatsapp_post "whatsapp", text := whatsapp_post }]
    exampleMarkdown := [] }

/-- The non-generating branch of `main` (source lines 230 to 245): the
fill-in guidance when the button was not clicked, then the example
section. -/
def guidanceStage (env : Env) : Output :=
  { sidebarWarning := none
    info := if env.generate then [] else [fill_in_info]
    errorMsg := none
    calls := []
    posts := []
    exampleMarkdown := [example_heading, example_block] }

/-- One run of `main` (source lines 102 to 245), restricted to its
observable behaviour: early return with guidance when the key is empty,
early return with a top-level error when provider setup raises, otherwise
the form branch. -/
def main (env : Env) : Output :=
  if env.api_key = "" then
    { sidebarWarning := some (missing_key_warning env.api_choice)
      info := [missing_key_info env.api_choice]
      errorMsg := none
      calls := []
      posts := []
      exampleMarkdown := [] }
  else
    match env.setup with
    | Except.error e =>
      { sidebarWarning := none
        info := []
        errorMsg := some (init_error_message env.api_choice e)
        calls := []
        posts := []
        exampleMarkdown := [] }
    | Except.ok _ =>
      if triggers env then generateStage env else guidanceStage env

/-- The displayed result text of a platform section, when present. -/
def Output.textOf (o : Output) (platform : String) : Option String :=
  (o.posts.find? (fun p => p.platform == platform)).map RenderedPost.text

/-- Replace the behaviour of the remote endpoint, all widget state held
fixed. -/
def Env.withRemote (env : Env) (b : String → Except String String) : Env :=
  { env with remote := b }

theorem strMk_eq_of_data {a b : String} (h : a.data = b.data) : a = b := by
  cases a
  cases b
  exact congrArg String.mk h

theorem str_append_cancel_left {a b c : String} (h : a ++ b = a ++ c) : b = c := by
  cases a with
  | mk la =>
    cases b with
    | mk lb =>
      cases c with
      | mk lc =>
        have hd : la ++ lb = la ++ lc := congrArg String.data h
        exact congrArg String.mk (List.append_cancel_left hd)

theorem str_append_inj {a b c d : String} (h : a ++ b = c ++ d)
    (hl : a.length = c.length) : a = c ∧ b = d := by
  cases a with
  | mk la =>
    cases b with
    | mk lb =>
      cases c with
      | mk lc =>
        cases d with
        | mk ld =>
          have hd : la ++ lb = lc ++ ld := congrArg String.data h
          obtain ⟨h1, h2⟩ := List.append_inj hd hl
          exact ⟨congrArg String.mk h1, congrArg String.mk h2⟩

theorem gemini_prompt_platform_inj {p1 p2 : String} (n d ds v : String)
    (h : gemini_prompt p1 n d ds v = gemini_prompt p2 n d ds v) : p1 = p2 := by
  have hlen : p1.length = p2.length := by
    have hl := congrArg String.length h
    simp only [gemini_prompt, String.length_append] at hl
    omega
  simp only [gemini_prompt, str_append_assoc] at h
  exact (str_append_inj (str_append_cancel_left h) hlen).1

theorem prompts_eq (platform event_name date description venue : String) :
    gemini_prompt platform event_name date description venue =
      chatgpt_prompt platform event_name date description venue := rfl

theorem promptFor_platform_inj (c : ApiChoice) {p1 p2 : String} (n d ds v : String)
    (h : promptFor c p1 n d ds v = promptFor c p2 n d ds v) : p1 = p2 := by
  cases c with
  | Gemini => exact gemini_prompt_platform_inj n d ds v h
  | ChatGPT =>
    exact gemini_prompt_platform_inj n d ds v
      (by rw [prompts_eq, prompts_eq]; exact h)

theorem mainPrompt_platform_inj (env : Env) {p1 p2 : String}
    (h : mainPrompt env p1 = mainPrompt env p2) : p1 = p2 :=
  promptFor_platform_inj env.api_choice _ _ _ _ h

theorem date_lt_irrefl (d : Date) : ¬ Date.lt d d := by
  simp [Date.lt]

theorem main_missing_key (env : Env) (h : env.api_key = "") :
    main env =
      { sidebarWarning := some (missing_key_warning env.api_choice)
        info := [missing_key_info env.api_choice]
        errorMsg := none
        calls := []
        posts := []
        exampleMarkdown := [] } := by
  simp [main, h]

theorem main_init_error (env : Env) (e : String) (hkey : env.api_key ≠ "")
    (hsetup : env.setup = Except.error e) :
    main env =
      { sidebarWarning := none
        info := []
        errorMsg := some (init_error_message env.api_choice e)
        calls := []
        posts := []
        exampleMarkdown := [] } := by
  simp [main, hkey, hsetup]

theorem main_generates (env : Env) (hkey : env.api_key ≠ "")
    (hsetup : env.setup = Except.ok ()) (htrig : triggers env = true) :
    main env = generateStage env := by
  simp [main, hkey, hsetup, htrig]

theorem main_guidance (env : Env) (hkey : env.api_key ≠ "")
    (hsetup : env.setup = Except.ok ()) (htrig : triggers env = false) :
    main env = guidanceStage env := by
  simp [main, hkey, hsetup, htrig]

theorem generateStage_textOf_linkedin (env : Env) :
    (generateStage env).textOf "LinkedIn" =
      some (dispatch env.api_choice env.remote "LinkedIn" env.event_name
        (formatted_date env) env.description env.venue) := rfl

theorem generateStage_textOf_twitter (env : Env) :
    (generateStage env).textOf "Twitter" =
      some (dispatch env.api_choice env.remote "Twitter" env.event_name
        (formatted_date env) env.description env.venue) := rfl

theorem generateStage_textOf_whatsapp (env : Env) :
    (generateStage env).textOf "WhatsApp" =
      some (dispatch env.api_choice env.remote "WhatsApp" env.event_name
        (formatted_date env) env.description env.venue) := rfl

theorem dispatch_error (c : ApiChoice) (b : String → Except String String)
    (platform n d ds v e : String)
    (h : b (promptFor c platform n d ds v) = Except.error e) :
    dispatch c b platform n d ds v = "Error generating post: " ++ e := by
  cases c with
  | Gemini =>
    simp only [promptFor] at h
    simp [dispatch, generate_post_with_gemini, h]
  | ChatGPT =>
    simp only [promptFor] at h
    simp [dispatch, generate_post_with_chatgpt, h]

theorem dispatch_congr (c : ApiChoice) (b b' : String → Except String String)
    (platform n d ds v : String)
    (h : b' (promptFor c platform n d ds v) = b (promptFor c platform n d ds v)) :
    dispatch c b' platform n d ds v = dispatch c b platform n d ds v := by
  cases c with
  | Gemini =>
    simp only [promptFor] at h
    simp [dispatch, generate_post_with_gemini, h]
  | ChatGPT =>
    simp only [promptFor] at h
    simp [dispatch, generate_post_with_chatgpt, h]

/-- A remote behaviour that always succeeds. -/
def sampleRemote : String → Except String String :=
  fun _ => Except.ok "  Great event post!  "

/-- A remote behaviour that always raises. -/
def failRemote : String → Except String String :=
  fun _ => Except.error "quota exceeded"

/-- A sample run with a supplied key, successful setup, a complete form and
the generate button clicked. -/
def envOk : Env :=
  { api_choice := ApiChoice.Gemini
    api_key := "key-123"
    setup := Except.ok ()
    event_name := "Tech Conference 2025"
    dateRequested := { year := 2025, month := 1, day := 15 }
    today := { year := 2025, month := 1, day := 1 }
    venue := "Virtual Event"
    description := "Join us for a day of tech talks."
    generate := true
    remote := sampleRemote }

/-- The sample run with an empty credential. -/
def envEmptyKey : Env := { envOk with api_key := "" }

/-- The sample run with a setup step that raises. -/
def envInitFail : Env := { envOk with setup := Except.error "invalid api key" }

/-- The sample run with an empty event name and the button clicked. -/
def envIncomplete : Env := { envOk with event_name := "" }

/-- The sample run whose remote endpoint raises on every call. -/
def envRemoteFail : Env := { envOk with remote := failRemote }

/-- C10: for every equal tuple of inputs (platform, event name, date string,
description, venue), the Gemini generation function and the ChatGPT
generation function construct character-for-character identical prompt
strings, so the two providers receive the same prompt. -/
theorem gemini_chatgpt_same_prompt
    (platform event_name date description venue : String) :
    gemini_prompt platform event_name date description venue =
      chatgpt_prompt platform event_name date description venue := rfl

/-- C1: for every input assignment of platform, event name, formatted date,
venue and description (all non-empty), the prompt built by
`generate_post_with_gemini` and the prompt built by
`generate_post_with_chatgpt` contain each of the five values verbatim as a
substring. -/
theorem prompt_contains_event_fields
    (platform event_name date venue description : String)
    (hp : platform ≠ "") (hn : event_name ≠ "") (hd : date ≠ "")
    (hv : venue ≠ "") (hds : description ≠ "") :
    (containsStr (gemini_prompt platform event_name date description venue) platform ∧
     containsStr (gemini_prompt platform event_name date description venue) event_name ∧
     containsStr (gemini_prompt platform event_name date description venue) date ∧
     containsStr (gemini_prompt platform event_name date description venue) venue ∧
     containsStr (gemini_prompt platform event_name date description venue) description) ∧
    (containsStr (chatgpt_prompt platform event_name date description venue) platform ∧
     containsStr (chatgpt_prompt platform event_name date description venue) event_name ∧
     containsStr (chatgpt_prompt platform event_name date description venue) date ∧
     containsStr (chatgpt_prompt platform event_name date description venue) venue ∧
     containsStr (chatgpt_prompt platform event_name date description venue) description) := by
  refine ⟨⟨?_, ?_, ?_, ?_, ?_⟩, ⟨?_, ?_, ?_, ?_, ?_⟩⟩ <;>
    first
      | (simp only [gemini_prompt]
         repeat first | exact containsStr_last _ _ | apply containsStr_appL)
      | (simp only [chatgpt_prompt]
         repeat first | exact containsStr_last _ _ | apply containsStr_appL)

/-- Witness for C1 at the spec example input. -/
theorem prompt_contains_event_fields_witness :
    (("LinkedIn" : String) ≠ "" ∧ ("Tech Conference 2025" : String) ≠ "" ∧
     ("January 15, 2025" : String) ≠ "" ∧ ("Virtual Event" : String) ≠ "" ∧
     ("Join us for a day of tech talks." : String) ≠ "") ∧
    ((containsStr (gemini_prompt "LinkedIn" "Tech Conference 2025" "January 15, 2025"
        "Join us for a day of tech talks." "Virtual Event") "LinkedIn" ∧
      containsStr (gemini_prompt "LinkedIn" "Tech Conference 2025" "January 15, 2025"
        "Join us for a day of tech talks." "Virtual Event") "Tech Conference 2025" ∧
      containsStr (gemini_prompt "LinkedIn" "Tech Conference 2025" "January 15, 2025"
        "Join us for a day of tech talks." "Virtual Event") "January 15, 2025" ∧
      containsStr (gemini_prompt "LinkedIn" "Tech Conference 2025" "January 15, 2025"
        "Join us for a day of tech talks." "Virtual Event") "Virtual Event" ∧
      containsStr (gemini_prompt "LinkedIn" "Tech Conference 2025" "January 15, 2025"
        "Join us for a day of tech talks." "Virtual Event") "Join us for a day of tech talks.") ∧
     (containsStr (chatgpt_prompt "LinkedIn" "Tech Conference 2025" "January 15, 2025"
        "Join us for a day of tech talks." "Virtual Event") "LinkedIn" ∧
      containsStr (chatgpt_prompt "LinkedIn" "Tech Conference 2025" "January 15, 2025"
        "Join us for a day of tech talks." "Virtual Event") "Tech Conference 2025" ∧
      containsStr (chatgpt_prompt "LinkedIn" "Tech Conference 2025" "January 15, 2025"
        "Join us for a day of tech talks." "Virtual Event") "January 15, 2025" ∧
      containsStr (chatgpt_prompt "LinkedIn" "Tech Conference 2025" "January 15, 2025"
        "Join us for a day of tech talks." "Virtual Event") "Virtual Event" ∧
      containsStr (chatgpt_prompt "LinkedIn" "Tech Conference 2025" "January 15, 2025"
        "Join us for a day of tech talks." "Virtual Event") "Join us for a day of tech talks.")) :=
  ⟨⟨by decide, by decide, by decide, by decide, by decide⟩,
   prompt_contains_event_fields "LinkedIn" "Tech Conference 2025" "January 15, 2025"
     "Virtual Event" "Join us for a day of tech talks."
     (by decide) (by decide) (by decide) (by decide) (by decide)⟩

/-- C6: the date formatting step `date.strftime("%B %d, %Y")` renders every
date in the fixed long month-name form (full English month name, two-digit
day, year), independent of any locale input, and in particular renders
2025-01-15 as "January 15, 2025". -/
theorem date_long_month_format (d : Date) :
    Date.strftime d "%B %d, %Y" =
      monthName d.month ++ " " ++ pad2 d.day ++ ", " ++ Nat.repr d.year ∧
    Date.strftime { year := 2025, month := 1, day := 15 } "%B %d, %Y" =
      "January 15, 2025" := by
  constructor
  · have hfmt : ("%B %d, %Y" : String).data =
        ['%', 'B', ' ', '%', 'd', ',', ' ', '%', 'Y'] := rfl
    unfold Date.strftime
    rw [hfmt]
    apply strMk_eq_of_data
    simp [strftimeAux, String.data_append]
  · rfl

/-- C9: the date obtained from the date widget in any run is never strictly
earlier than the current date, so no generation request carries an event
date before today. -/
theorem event_date_not_before_today (env : Env) :
    ¬ Date.lt (mainEventDate env) env.today := by
  unfold mainEventDate date_input
  by_cases h : Date.lt env.dateRequested env.today
  · rw [if_pos h]
    exact date_lt_irrefl _
  · rw [if_neg h]
    exact h

/-- C3: when the supplied credential is empty, the run issues no provider
call, renders no result, and shows the guidance messages asking for the
key. -/
theorem missing_key_blocks_calls (env : Env) (h : env.api_key = "") :
    (main env).calls = [] ∧ (main env).posts = [] ∧
    (main env).info = [missing_key_info env.api_choice] ∧
    (main env).sidebarWarning = some (missing_key_warning env.api_choice) := by
  rw [main_missing_key env h]
  exact ⟨rfl, rfl, rfl, rfl⟩

/-- Witness for C3 at the sample run with empty key. -/
theorem missing_key_blocks_calls_witness :
    envEmptyKey.api_key = "" ∧
    ((main envEmptyKey).calls = [] ∧ (main envEmptyKey).posts = [] ∧
     (main envEmptyKey).info = [missing_key_info envEmptyKey.api_choice] ∧
     (main envEmptyKey).sidebarWarning =
       some (missing_key_warning envEmptyKey.api_choice)) :=
  ⟨rfl, missing_key_blocks_calls envEmptyKey rfl⟩

/-- C7: when the credential is supplied but provider setup raises, the run
shows the top-level initialization error and performs no generation call
and renders no result. -/
theorem init_failure_blocks_session (env : Env) (e : String)
    (hkey : env.api_key ≠ "") (hsetup : env.setup = Except.error e) :
    (main env).errorMsg = some (init_error_message env.api_choice e) ∧
    (main env).calls = [] ∧ (main env).posts = [] := by
  rw [main_init_error env e hkey hsetup]
  exact ⟨rfl, rfl, rfl⟩

/-- Witness for C7 at the sample run whose setup raises. -/
theorem init_failure_blocks_session_witness :
    envInitFail.api_key ≠ "" ∧ envInitFail.setup = Except.error "invalid api key" ∧
    ((main envInitFail).errorMsg =
       some (init_error_message envInitFail.api_choice "invalid api key") ∧
     (main envInitFail).calls = [] ∧ (main envInitFail).posts = []) :=
  ⟨by decide, rfl,
   init_failure_blocks_session envInitFail "invalid api key" (by decide) rfl⟩

/-- A run performed generation when it issued at least one remote call. -/
def generationTriggered (o : Output) : Prop := o.calls ≠ []

/-- The precondition named by the claim: credential non-empty, the four
event fields non-empty (a date value is never empty), and the generate
action invoked. -/
def C4_precondition (env : Env) : Prop :=
  env.api_key ≠ "" ∧ env.event_name ≠ "" ∧
  Date.truthy (mainEventDate env) = true ∧
  env.venue ≠ "" ∧ env.description ≠ "" ∧ env.generate = true

/-- The claim as stated: generation is triggered exactly on the
precondition, and whenever the precondition fails the static guidance and
the example input are both presented. -/
def claimC4 : Prop :=
  ∀ env : Env,
    (generationTriggered (main env) ↔ C4_precondition env) ∧
    (¬ C4_precondition env →
      fill_in_info ∈ (main env).info ∧ (main env).exampleMarkdown ≠ [])

theorem triggers_eq_true_iff (env : Env) :
    triggers env = true ↔
      (env.event_name ≠ "" ∧ env.venue ≠ "" ∧ env.description ≠ "" ∧
       env.generate = true) := by
  simp [triggers, Date.truthy, Bool.and_eq_true, bne_iff_ne, and_assoc]

/-- C4 counterexample: in the run with a supplied key, successful setup, an
empty event name and the generate button clicked, no generation occurs but
the static guidance info is not presented (only the example is), so the
claim as stated fails. -/
theorem generation_trigger_claim_counterexample : ¬ claimC4 := by
  intro h
  have h2 := (h envIncomplete).2 (fun hp => hp.2.1 rfl)
  have hinfo : (main envIncomplete).info = [] := rfl
  rw [hinfo] at h2
  exact absurd h2.1 (List.not_mem_nil _)

/-- C4 amended: assuming provider setup does not raise, generation is
triggered exactly on the precondition; moreover, whenever the credential is
present but the form condition fails, no result and no call is produced,
the example input is presented, and the static guidance additionally
appears exactly when the generate button was not clicked. -/
theorem generation_trigger_precondition (env : Env)
    (hsetup : env.setup = Except.ok ()) :
    (generationTriggered (main env) ↔ C4_precondition env) ∧
    (env.api_key ≠ "" → triggers env = false →
      (main env).calls = [] ∧ (main env).posts = [] ∧
      (main env).exampleMarkdown = [example_heading, example_block] ∧
      ((main env).info = if env.generate then [] else [fill_in_info])) := by
  constructor
  · constructor
    · intro htrig
      by_cases hkey : env.api_key = ""
      · rw [main_missing_key env hkey] at htrig
        exact absurd rfl htrig
      · by_cases ht : triggers env = true
        · obtain ⟨h1, h3, h4, h5⟩ := (triggers_eq_true_iff env).mp ht
          exact ⟨hkey, h1, rfl, h3, h4, h5⟩
        · have ht' : triggers env = false := by
            revert ht
            cases triggers env <;> simp
          rw [main_guidance env hkey hsetup ht'] at htrig
          exact absurd rfl htrig
    · intro hpre
      obtain ⟨hkey, h1, _, h3, h4, h5⟩ := hpre
      have ht : triggers env = true := (triggers_eq_true_iff env).mpr ⟨h1, h3, h4, h5⟩
      rw [main_generates env hkey hsetup ht]
      simp [generationTriggered, generateStage]
  · intro hkey ht
    rw [main_guidance env hkey hsetup ht]
    exact ⟨rfl, rfl, rfl, rfl⟩

/-- Witness for the amended C4 at the complete sample run. -/
theorem generation_trigger_precondition_witness :
    envOk.setup = Except.ok () ∧
    ((generationTriggered (main envOk) ↔ C4_precondition envOk) ∧
     (envOk.api_key ≠ "" → triggers envOk = false →
       (main envOk).calls = [] ∧ (main envOk).posts = [] ∧
       (main envOk).exampleMarkdown = [example_heading, example_block] ∧
       ((main envOk).info = if envOk.generate then [] else [fill_in_info]))) :=
  ⟨rfl, generation_trigger_precondition envOk rfl⟩

/-- C5: in every generating run, the text embedded in each clipboard-copy
control is exactly the displayed result text of that platform: the copy
button HTML is the fixed template around the verbatim result text. -/
theorem copy_text_equals_displayed_text (env : Env) (hkey : env.api_key ≠ "")
    (hsetup : env.setup = Except.ok ()) (htrig : triggers env = true) :
    ∀ p ∈ (main env).posts,
      p.copyHtml =
        copy_button_before p.button_id ++ p.text ++ copy_button_after p.button_id := by
  rw [main_generates env hkey hsetup htrig]
  intro p hp
  simp only [generateStage, List.mem_cons, List.not_mem_nil, or_false] at hp
  rcases hp with h | h | h <;> subst h <;> rfl

/-- Witness for C5 at the complete sample run. -/
theorem copy_text_equals_displayed_text_witness :
    (envOk.api_key ≠ "" ∧ envOk.setup = Except.ok () ∧ triggers envOk = true) ∧
    (∀ p ∈ (main envOk).posts,
      p.copyHtml =
        copy_button_before p.button_id ++ p.text ++ copy_button_after p.button_id) :=
  ⟨⟨by decide, rfl, by decide⟩,
   copy_text_equals_displayed_text envOk (by decide) rfl (by decide)⟩

/-- C8: every generating run issues exactly one remote call per platform,
three calls in the fixed order LinkedIn, Twitter, WhatsApp (the three
prompts are pairwise distinct), and renders the results in that same
order. -/
theorem three_calls_fixed_order (env : Env) (hkey : env.api_key ≠ "")
    (hsetup : env.setup = Except.ok ()) (htrig : triggers env = true) :
    (main env).calls =
      [mainPrompt env "LinkedIn", mainPrompt env "Twitter", mainPrompt env "WhatsApp"] ∧
    mainPrompt env "LinkedIn" ≠ mainPrompt env "Twitter" ∧
    mainPrompt env "LinkedIn" ≠ mainPrompt env "WhatsApp" ∧
    mainPrompt env "Twitter" ≠ mainPrompt env "WhatsApp" ∧
    (main env).posts.map RenderedPost.platform = ["LinkedIn", "Twitter", "WhatsApp"] ∧
    (main env).posts.map RenderedPost.text =
      [dispatch env.api_choice env.remote "LinkedIn" env.event_name
        (formatted_date env) env.description env.venue,
       dispatch env.api_choice env.remote "Twitter" env.event_name
        (formatted_date env) env.description env.venue,
       dispatch env.api_choice env.remote "WhatsApp" env.event_name
        (formatted_date env) env.description env.venue] := by
  rw [main_generates env hkey hsetup htrig]
  refine ⟨rfl, ?_, ?_, ?_, rfl, rfl⟩ <;>
    exact fun hq => absurd (mainPrompt_platform_inj env hq) (by decide)

/-- Witness for C8 at the complete sample run. -/
theorem three_calls_fixed_order_witness :
    (envOk.api_key ≠ "" ∧ envOk.setup = Except.ok () ∧ triggers envOk = true) ∧
    ((main envOk).calls =
      [mainPrompt envOk "LinkedIn", mainPrompt envOk "Twitter", mainPrompt envOk "WhatsApp"] ∧
     mainPrompt envOk "LinkedIn" ≠ mainPrompt envOk "Twitter" ∧
     mainPrompt envOk "LinkedIn" ≠ mainPrompt envOk "WhatsApp" ∧
     mainPrompt envOk "Twitter" ≠ mainPrompt envOk "WhatsApp" ∧
     (main envOk).posts.map RenderedPost.platform = ["LinkedIn", "Twitter", "WhatsApp"] ∧
     (main envOk).posts.map RenderedPost.text =
       [dispatch envOk.api_choice envOk.remote "LinkedIn" envOk.event_name
         (formatted_date envOk) envOk.description envOk.venue,
        dispatch envOk.api_choice envOk.remote "Twitter" envOk.event_name
         (formatted_date envOk) envOk.description envOk.venue,
        dispatch envOk.api_choice envOk.remote "WhatsApp" envOk.event_name
         (formatted_date envOk) envOk.description envOk.venue]) :=
  ⟨⟨by decide, rfl, by decide⟩,
   three_calls_fixed_order envOk (by decide) rfl (by decide)⟩

/-- C2: in every generating run, if the remote call of some platform raises
(with message `e`), the generate function returns the string
"Error generating post: " followed by `e` as that platform result, and the
results of the other two platforms depend only on the remote behaviour at
their own prompts: any behaviour agreeing outside the failing prompt leaves
them unchanged. -/
theorem generation_error_normalized_and_isolated (env : Env)
    (b' : String → Except String String) (e : String)
    (hkey : env.api_key ≠ "") (hsetup : env.setup = Except.ok ())
    (htrig : triggers env = true) :
    (env.remote (mainPrompt env "LinkedIn") = Except.error e →
      (main env).textOf "LinkedIn" = some ("Error generating post: " ++ e) ∧
      ((∀ q, q ≠ mainPrompt env "LinkedIn" → b' q = env.remote q) →
        (main (env.withRemote b')).textOf "Twitter" = (main env).textOf "Twitter" ∧
        (main (env.withRemote b')).textOf "WhatsApp" = (main env).textOf "WhatsApp")) ∧
    (env.remote (mainPrompt env "Twitter") = Except.error e →
      (main env).textOf "Twitter" = some ("Error generating post: " ++ e) ∧
      ((∀ q, q ≠ mainPrompt env "Twitter" → b' q = env.remote q) →
        (main (env.withRemote b')).textOf "LinkedIn" = (main env).textOf "LinkedIn" ∧
        (main (env.withRemote b')).textOf "WhatsApp" = (main env).textOf "WhatsApp")) ∧
    (env.remote (mainPrompt env "WhatsApp") = Except.error e →
      (main env).textOf "WhatsApp" = some ("Error generating post: " ++ e) ∧
      ((∀ q, q ≠ mainPrompt env "WhatsApp" → b' q = env.remote q) →
        (main (env.withRemote b')).textOf "LinkedIn" = (main env).textOf "LinkedIn" ∧
        (main (env.withRemote b')).textOf "Twitter" = (main env).textOf "Twitter")) := by
  have hmain : main env = generateStage env := main_generates env hkey hsetup htrig
  have hmain' : main (env.withRemote b') = generateStage (env.withRemote b') :=
    main_generates (env.withRemote b') hkey hsetup htrig
  refine ⟨?_, ?_, ?_⟩
  · intro herr
    constructor
    · rw [hmain, generateStage_textOf_linkedin]
      exact congrArg some (dispatch_error env.api_choice env.remote "LinkedIn"
        env.event_name (formatted_date env) env.description env.venue e herr)
    · intro hagree
      have hT : b' (mainPrompt env "Twitter") = env.remote (mainPrompt env "Twitter") :=
        hagree _ (fun hq => absurd (mainPrompt_platform_inj env hq) (by decide))
      have hW : b' (mainPrompt env "WhatsApp") = env.remote (mainPrompt env "WhatsApp") :=
        hagree _ (fun hq => absurd (mainPrompt_platform_inj env hq) (by decide))
      constructor
      · rw [hmain, hmain', generateStage_textOf_twitter, generateStage_textOf_twitter]
        exact congrArg some (dispatch_congr env.api_choice env.remote b' "Twitter"
          env.event_name (formatted_date env) env.description env.venue hT)
      · rw [hmain, hmain', generateStage_textOf_whatsapp, generateStage_textOf_whatsapp]
        exact congrArg some (dispatch_congr env.api_choice env.remote b' "WhatsApp"
          env.event_name (formatted_date env) env.description env.venue hW)
  · intro herr
    constructor
    · rw [hmain, generateStage_textOf_twitter]
      exact congrArg some (dispatch_error env.api_choice env.remote "Twitter"
        env.event_name (formatted_date env) env.description env.venue e herr)
    · intro hagree
      have hL : b' (mainPrompt env "LinkedIn") = env.remote (mainPrompt env "LinkedIn") :=
        hagree _ (fun hq => absurd (mainPrompt_platform_inj env hq) (by decide))
      have hW : b' (mainPrompt env "WhatsApp") = env.remote (mainPrompt env "WhatsApp") :=
        hagree _ (fun hq => absurd (mainPrompt_platform_inj env hq) (by decide))
      constructor
      · rw [hmain, hmain', generateStage_textOf_linkedin, generateStage_textOf_linkedin]
        exact congrArg some (dispatch_congr env.api_choice env.remote b' "LinkedIn"
          env.event_name (formatted_date env) env.description env.venue hL)
      · rw [hmain, hmain', generateStage_textOf_whatsapp, generateStage_textOf_whatsapp]
        exact congrArg some (dispatch_congr env.api_choice env.remote b' "WhatsApp"
          env.event_name (formatted_date env) env.description env.venue hW)
  · intro herr
    constructor
    · rw [hmain, generateStage_textOf_whatsapp]
      exact congrArg some (dispatch_error env.api_choice env.remote "WhatsApp"
        env.event_name (formatted_date env) env.description env.venue e herr)
    · intro hagree
      have hL : b' (mainPrompt env "LinkedIn") = env.remote (mainPrompt env "LinkedIn") :=
        hagree _ (fun hq => absurd (mainPrompt_platform_inj env hq) (by decide))
      have hT : b' (mainPrompt env "Twitter") = env.remote (mainPrompt env "Twitter") :=
        hagree _ (fun hq => absurd (mainPrompt_platform_inj env hq) (by decide))
      constructor
      · rw [hmain, hmain', generateStage_textOf_linkedin, generateStage_textOf_linkedin]
        exact congrArg some (dispatch_congr env.api_choice env.remote b' "LinkedIn"
          env.event_name (formatted_date env) env.description env.venue hL)
      · rw [hmain, hmain', generateStage_textOf_twitter, generateStage_textOf_twitter]
        exact congrArg some (dispatch_congr env.api_choice env.remote b' "Twitter"
          env.event_name (formatted_date env) env.description env.venue hT)

/-- Witness for C2 at the sample run whose remote endpoint raises. -/
theorem generation_error_normalized_and_isolated_witness :
    (envRemoteFail.api_key ≠ "" ∧ envRemoteFail.setup = Except.ok () ∧
     triggers envRemoteFail = true ∧
     envRemoteFail.remote (mainPrompt envRemoteFail "LinkedIn") =
       Except.error "quota exceeded") ∧
    ((main envRemoteFail).textOf "LinkedIn" =
       some ("Error generating post: " ++ "quota exceeded") ∧
     ((∀ q, q ≠ mainPrompt envRemoteFail "LinkedIn" →
         failRemote q = envRemoteFail.remote q) →
       (main (envRemoteFail.withRemote failRemote)).textOf "Twitter" =
         (main envRemoteFail).textOf "Twitter" ∧
       (main (envRemoteFail.withRemote failRemote)).textOf "WhatsApp" =
         (main envRemoteFail).textOf "WhatsApp")) :=
  ⟨⟨by decide, rfl, by decide, rfl⟩,
   (generation_error_normalized_and_isolated envRemoteFail failRemote "quota exceeded"
     (by decide) rfl (by decide)).1 rfl⟩

end SMPG
